import Mathlib

/-!
# Subscriptions: the data-access layer

A shallow embedding of `internal/models/models.go` and
`internal/storage/database/subscriptions_repository.go`, and the properties of the six
data-access operations.

Layout of the development:

* Go values: `uuid.UUID`, `time.Time` with the layout `2006-01`, `error`, the two model structs;
* the driver boundary: result rows and `Scan` (`pgx.Row`, `pgx.Rows`);
* the interface `databaseInterface`, the six statement texts, and the six operations written
  once against the interface (`Database.GetSubscription`, ...): the Go control flow, for any pool;
* the relational store as one pool (`postgres`): table `subscriptions`, a syntax check of the
  statement texts and a reading of the statements that pass it; a pool with canned answers
  (`mockPool`) as another;
* example data, then the theorems.
-/

namespace Subscriptions

/-! ## Go values -/

/-- The type `uuid.UUID`: only equality of identifiers is used. -/
abbrev UUID := Nat

/-- The Go `error` values the operations see or build. -/
inductive Error where
  /-- The sentinel `pgx.ErrNoRows`. -/
  | ErrNoRows
  /-- Any other error raised by the pool or by the driver. -/
  | driver (msg : String)
  /-- A `*time.ParseError` for the given value. -/
  | parse (value : String)
  /-- The error built by `fmt.Errorf(context + ": %v", cause)`. -/
  | Errorf (context : String) (cause : Error)
deriving DecidableEq, Repr

deriving instance DecidableEq for Except

namespace time

/-- The type `time.Time`, as a civil date and a time of day (nanoseconds since midnight); locations
are not modelled. The zero value is January 1, year 1, 00:00:00. -/
structure Time where
  year : Int := 1
  month : Nat := 1
  day : Nat := 1
  nsec : Nat := 0
deriving DecidableEq, Repr

/-- The decimal digits of `n`, left-padded with zeros to `width` (the digit loop of `appendInt`). -/
def zeroPad (width n : Nat) : List Char :=
  let ds := Nat.toDigits 10 n
  List.replicate (width - ds.length) '0' ++ ds

/-- Go `appendInt(b, x, width)`: a sign for a negative `x`, then the zero-padded magnitude. -/
def appendInt (x : Int) (width : Nat) : List Char :=
  if x < 0 then '-' :: zeroPad width x.natAbs else zeroPad width x.natAbs

/-- The call `t.Format("2006-01")`: the year on at least four digits, a dash, the month on two
digits. -/
def Time.Format (t : Time) : String :=
  String.mk (appendInt t.year 4 ++ '-' :: appendInt t.month 2)

/-- Go `isDigit`. -/
def isDigit (c : Char) : Bool := decide ('0' ≤ c) && decide (c ≤ '9')

/-- Value of a decimal digit, `c - '0'`. -/
def digit (c : Char) : Nat := c.toNat - '0'.toNat

/-- The call `time.Parse("2006-01", value)`: exactly four digits (`stdLongYear`), the literal
dash, exactly two digits (`stdZeroMonth`, a month from 1 to 12), and no text after them. The
result is the first day of that month at midnight. -/
def Parse (value : String) : Except Error Time :=
  match value.toList with
  | [y1, y2, y3, y4, dash, m1, m2] =>
    if isDigit y1 && isDigit y2 && isDigit y3 && isDigit y4 && dash == '-'
        && isDigit m1 && isDigit m2 then
      let month := digit m1 * 10 + digit m2
      if month = 0 ∨ 12 < month then .error (.parse value)
      else .ok { year := ((digit y1 * 1000 + digit y2 * 100 + digit y3 * 10 + digit y4 : Nat) : Int),
                 month := month, day := 1, nsec := 0 }
    else .error (.parse value)
  | _ => .error (.parse value)

/-- The instants `a` is not after `b`, by date and time of day. -/
def Time.le (a b : Time) : Prop :=
  a.year < b.year ∨ (a.year = b.year ∧ (a.month < b.month ∨ (a.month = b.month ∧
    (a.day < b.day ∨ (a.day = b.day ∧ a.nsec ≤ b.nsec)))))

instance (a b : Time) : Decidable (Time.le a b) := by
  unfold Time.le; infer_instance

end time

namespace models

/-- The struct `models.Subscription`; `Price` is an `int32`. A field left out of a literal has its
zero value. -/
structure Subscription where
  UserID : UUID := 0
  ServiceName : String := ""
  Price : Int := 0
  StartDate : time.Time := {}
  EndDate : time.Time := {}
deriving DecidableEq, Repr

/-- The struct `models.TotalSubscriptionCost`. -/
structure TotalSubscriptionCost where
  TotalCost : Int
deriving DecidableEq, Repr

end models

open models

/-! ## The driver boundary -/

/-- A value of one column of a result row. -/
inductive Value where
  | null
  | text (s : String)
  | int (n : Int)
  | uuid (u : UUID)
deriving DecidableEq, Repr

/-- One result row: its column values, in select-list order. -/
abbrev Tuple := List Value

/-- Scanning a column into a `*string`. -/
def scanString : Value → Except Error String
  | .text s => .ok s
  | .null => .error (.driver "cannot scan NULL into *string")
  | _ => .error (.driver "cannot scan into *string")

/-- Scanning a column into a `*uuid.UUID`. -/
def scanUUID : Value → Except Error UUID
  | .uuid u => .ok u
  | .null => .error (.driver "cannot scan NULL into *uuid.UUID")
  | _ => .error (.driver "cannot scan into *uuid.UUID")

/-- Scanning a column into a `*int32`: the value has to fit. -/
def scanInt32 : Value → Except Error Int
  | .int n =>
    if -2147483648 ≤ n ∧ n ≤ 2147483647 then .ok n
    else .error (.driver "value out of range for int32")
  | .null => .error (.driver "cannot scan NULL into *int32")
  | _ => .error (.driver "cannot scan into *int32")

/-- Scanning a column into a `*int` (64 bits): the value has to fit. -/
def scanInt : Value → Except Error Int
  | .int n =>
    if -9223372036854775808 ≤ n ∧ n ≤ 9223372036854775807 then .ok n
    else .error (.driver "value out of range for int")
  | .null => .error (.driver "cannot scan NULL into *int")
  | _ => .error (.driver "cannot scan into *int")

/-- The error of `Scan` when the row has not as many columns as there are destinations. -/
def countMismatch : Error :=
  .driver "number of field descriptions must equal number of destinations"

/-- Scan of one row into one destination. -/
def Tuple.Scan1 {α : Type} (d1 : Value → Except Error α) : Tuple → Except Error α
  | [a] => d1 a
  | _ => .error countMismatch

/-- Scan of one row into four destinations. -/
def Tuple.Scan4 {α β γ δ : Type} (d1 : Value → Except Error α) (d2 : Value → Except Error β)
    (d3 : Value → Except Error γ) (d4 : Value → Except Error δ) :
    Tuple → Except Error (α × β × γ × δ)
  | [a, b, c, d] => do
    let x1 ← d1 a
    let x2 ← d2 b
    let x3 ← d3 c
    let x4 ← d4 d
    pure (x1, x2, x3, x4)
  | _ => .error countMismatch

/-- Scan of one row into five destinations. -/
def Tuple.Scan5 {α β γ δ ε : Type} (d1 : Value → Except Error α) (d2 : Value → Except Error β)
    (d3 : Value → Except Error γ) (d4 : Value → Except Error δ) (d5 : Value → Except Error ε) :
    Tuple → Except Error (α × β × γ × δ × ε)
  | [a, b, c, d, e] => do
    let x1 ← d1 a
    let x2 ← d2 b
    let x3 ← d3 c
    let x4 ← d4 d
    let x5 ← d5 e
    pure (x1, x2, x3, x4, x5)
  | _ => .error countMismatch

namespace pgx

/-- What `QueryRow` hands back (`pgx.Row`): the query failed, it produced no row, or its first
row. -/
inductive Row where
  | failed (err : Error)
  | empty
  | first (t : Tuple)
deriving DecidableEq, Repr

/-- The outcome of `row.Scan(dest...)` before the destinations are looked at: the query error,
`ErrNoRows` when there is no row, else the row to scan. -/
def Row.tuple : Row → Except Error Tuple
  | .failed err => .error err
  | .empty => .error .ErrNoRows
  | .first t => .ok t

/-- What `Query` hands back when it does not fail (`pgx.Rows`): the rows that `Next` delivers, and
the value of `rows.Err()` once `Next` has returned false. -/
structure Rows where
  tuples : List Tuple
  err : Option Error := none
deriving DecidableEq, Repr

end pgx


/-- The named arguments of a statement (`pgx.NamedArgs`). -/
abbrev NamedArgs := List (String × Value)

/-- The result of `Exec` (`pgconn.CommandTag`). -/
structure CommandTag where
  rowsAffected : Nat
deriving DecidableEq, Repr

/-- The interface `databaseInterface` of `database.go`, over the state `σ` behind the pool. `Exec`
may change that state; `Query` and `QueryRow` read it. -/
structure databaseInterface (σ : Type) where
  Exec : σ → String → NamedArgs → Except Error CommandTag × σ
  Query : σ → String → NamedArgs → Except Error pgx.Rows
  QueryRow : σ → String → NamedArgs → pgx.Row

/-- The struct `Database`: a pool, and the state behind it. -/
structure Database (σ : Type) where
  pool : databaseInterface σ
  conn : σ

/-! ## The statements -/

/-- Statement text of `GetSubscription` (subscriptions_repository.go, lines 15-17). -/
def getSQL : String :=
  "SELECT service_name, user_id, price, start_date, end_date \n" ++
  "\t\t FROM subscriptions \n" ++
  "\t\t WHERE user_id = @user_id and service_name = @service_name;"

/-- Statement text of `CreateSubscription` (lines 43-44). -/
def createSQL : String :=
  "INSERT INTO subscriptions (user_id, service_name, price, start_date, end_date)\n" ++
  "\t\t VALUES (@user_id, @service_name, @price, @start_date, @end_date)"

/-- Statement text of `UpdateSubscription` (lines 60-62). -/
def updateSQL : String :=
  "UPDATE subscriptions\n" ++
  "\t\t SET price = @price, start_date = @start_date, end_date = @end_date \n" ++
  "\t\t WHERE user_id = @user_id AND service_name @service_name"

/-- Statement text of `DeleteSubscription` (lines 79-80). -/
def deleteSQL : String :=
  "DELETE FROM subscriptions\n" ++
  "\t\t WHERE user_id = @user_id AND service_name = @service_name"

/-- Statement text of `ListSubscriptions` (lines 94-98). -/
def listSQL : String :=
  "SELECT service_name, user_id, price, start_date, end_date\n" ++
  "\t\t FROM subscriptions\n" ++
  "\t\t WHERE user_id = @user_id\n" ++
  "\t\t ORDER BY start_date DESC\n" ++
  "\t\t LIMIT 10 OFFSET 10*(@page-1)"

/-- Statement text of `SubscriptionTotalCost` (lines 130-146). -/
def totalCostSQL : String :=
  "SELECT COALESCE(SUM(\n" ++
  "\t\t \tprice *\n" ++
  "\t\t \t\tEXTRACT(YEAR FROM AGE(\n" ++
  "\t\t \t\t\tLEAST(end_date, @end_date), end_date),\n" ++
  "\t\t\t\t\tGREATEST(start_date, @start_date)\n" ++
  "\t\t\t\t)) * 12 +\n" ++
  "\t\t\t\tEXTRACT(MONTH FROM AGE(\n" ++
  "\t\t\t\t\tLEAST(COALESCE(end_date, @end_date), @end_date),\n" ++
  "\t\t\t\t\tGREATEST(start_date, @start_date)\n" ++
  "\t\t\t\t))\n" ++
  "\t\t \t)\n" ++
  "\t\t ), 0) AS total_cost\n" ++
  "\t\t FROM subscriptions\n" ++
  "\t\t WHERE user_id = @user_id\n" ++
  "\t\t   AND (service_name IS NULL OR service_name = @service_name)\n" ++
  "\t\t   AND start_date <= @start_date\n" ++
  "\t\t   AND (end_date IS NULL OR end_date >= @end_date);"

/-! ## The six operations, for any pool -/

section Operations

variable {σ : Type}

/-- The call `row.Scan(&sub.ServiceName, &sub.UserID, &startDate, &endDate)` of
`GetSubscription`, on the row that `QueryRow` returned. -/
def GetSubscription.scan (d : Database σ) (userID : UUID) (serviceName : String) :
    Except Error (String × UUID × String × String) :=
  (d.pool.QueryRow d.conn getSQL
      [("user_id", .uuid userID), ("service_name", .text serviceName)]).tuple
    >>= Tuple.Scan4 scanString scanUUID scanString scanString

/-- The method `GetSubscription` (lines 13-39). `Price` is no destination of the scan and keeps
the zero value of `&models.Subscription{}`. -/
def Database.GetSubscription (d : Database σ) (userID : UUID) (serviceName : String) :
    Option Subscription × Option Error :=
  match GetSubscription.scan d userID serviceName with
  | .error err =>
    if err = .ErrNoRows then (none, none)
    else (none, some (.Errorf "error scanning row" err))
  | .ok (name, user, startDate, endDate) =>
    match time.Parse startDate with
    | .error err => (none, some (.Errorf "error parsing start date" err))
    | .ok start =>
      match time.Parse endDate with
      | .error err => (none, some (.Errorf "error parsing end date" err))
      | .ok stop =>
        (some { ServiceName := name, UserID := user, StartDate := start, EndDate := stop }, none)

/-- The named arguments that `CreateSubscription` and `UpdateSubscription` pass. -/
def subscriptionArgs (subscription : Subscription) : NamedArgs :=
  [("user_id", .uuid subscription.UserID),
   ("service_name", .text subscription.ServiceName),
   ("price", .int subscription.Price),
   ("start_date", .text subscription.StartDate.Format),
   ("end_date", .text subscription.EndDate.Format)]

/-- The method `CreateSubscription` (lines 41-56). -/
def Database.CreateSubscription (d : Database σ) (subscription : Subscription) :
    (Option Subscription × Option Error) × Database σ :=
  match d.pool.Exec d.conn createSQL (subscriptionArgs subscription) with
  | (.error err, conn) =>
    ((none, some (.Errorf "error creating subscription" err)), { d with conn := conn })
  | (.ok _, conn) => ((some subscription, none), { d with conn := conn })

/-- The method `UpdateSubscription` (lines 58-75). -/
def Database.UpdateSubscription (d : Database σ) (subscription : Subscription) :
    (Option Subscription × Option Error) × Database σ :=
  match d.pool.Exec d.conn updateSQL (subscriptionArgs subscription) with
  | (.error err, conn) =>
    ((none, some (.Errorf "error updating subscription" err)), { d with conn := conn })
  | (.ok _, conn) => ((some subscription, none), { d with conn := conn })

/-- The method `DeleteSubscription` (lines 77-90). -/
def Database.DeleteSubscription (d : Database σ) (userID : UUID) (serviceName : String) :
    Option Error × Database σ :=
  match d.pool.Exec d.conn deleteSQL
      [("user_id", .uuid userID), ("service_name", .text serviceName)] with
  | (.error err, conn) =>
    (some (.Errorf "error deleting subscription" err), { d with conn := conn })
  | (.ok _, conn) => (none, { d with conn := conn })

/-- The body of the loop of `ListSubscriptions` (lines 106-118) on one row: the scan into five
destinations, then the two date conversions. -/
def ListSubscriptions.row (t : Tuple) : Except Error Subscription :=
  match Tuple.Scan5 scanString scanUUID scanInt32 scanString scanString t with
  | .error err => .error (.Errorf "error scanning row" err)
  | .ok (name, user, price, startDate, endDate) =>
    match time.Parse startDate with
    | .error err => .error (.Errorf "error parsing start date" err)
    | .ok start =>
      match time.Parse endDate with
      | .error err => .error (.Errorf "error parsing end date" err)
      | .ok stop =>
        .ok { ServiceName := name, UserID := user, Price := price,
              StartDate := start, EndDate := stop }

/-- The loop `for rows.Next()` of `ListSubscriptions` (lines 105-120): `subscriptions` is the
slice built so far, `none` for the nil slice of `var subscriptions []*models.Subscription`. The
first row that fails ends the loop with its error. -/
def ListSubscriptions.loop :
    List Tuple → Option (List Subscription) → Except Error (Option (List Subscription))
  | [], subscriptions => .ok subscriptions
  | t :: ts, subscriptions =>
    match ListSubscriptions.row t with
    | .error err => .error err
    | .ok sub => ListSubscriptions.loop ts (some (subscriptions.getD [] ++ [sub]))

/-- The method `ListSubscriptions` (lines 92-126). The result slice is `none` when it is nil. -/
def Database.ListSubscriptions (d : Database σ) (userID : UUID) (page : Int) :
    Option (List Subscription) × Option Error :=
  match d.pool.Query d.conn listSQL [("user_id", .uuid userID), ("page", .int page)] with
  | .error err => (none, some (.Errorf "error listing subscriptions" err))
  | .ok rows =>
    match ListSubscriptions.loop rows.tuples none with
    | .error err => (none, some err)
    | .ok subscriptions =>
      match rows.err with
      | some err => (none, some (.Errorf "error iterating over rows" err))
      | none => (subscriptions, none)

/-- The method `SubscriptionTotalCost` (lines 128-161). The two date strings go to the pool as
they are. -/
def Database.SubscriptionTotalCost (d : Database σ) (userID : UUID)
    (serviceName startDate endDate : String) : Option TotalSubscriptionCost × Option Error :=
  let row := d.pool.QueryRow d.conn totalCostSQL
    [("user_id", .uuid userID), ("start_date", .text startDate), ("end_date", .text endDate),
     ("service_name", .text serviceName)]
  match row.tuple >>= Tuple.Scan1 scanInt with
  | .error err =>
    if err = .ErrNoRows then (none, none)
    else (none, some (.Errorf "error scanning row" err))
  | .ok totalCost => (some { TotalCost := totalCost }, none)

end Operations


/-! ## The relational store

The file that declares table `subscriptions` is not part of the sources. The operations write both
date columns as text in the layout `2006-01` and read them back as text, and two statements test
columns for NULL, so a row is modelled with five nullable columns, the dates as text. -/

/-- One row of table `subscriptions`; `none` is NULL. -/
structure TableRow where
  user_id : Option UUID
  service_name : Option String
  price : Option Int
  start_date : Option String
  end_date : Option String
deriving DecidableEq, Repr

/-- The content of table `subscriptions`. -/
abbrev Table := List TableRow

/-! ### Syntax of the statement texts

The store parses a statement before it runs it. Two conditions that every accepted text meets are
checked here on the text itself: the parentheses are balanced, and no `@name` placeholder comes
directly after an operand (a name, a number, a placeholder or a closing parenthesis). None of the
six texts holds a quoted string or a comment, so both checks read the text character by
character. -/

/-- Depth of open parentheses after reading the text from depth `depth`; `none` when a closing
parenthesis has no opening one. -/
def parenDepth : List Char → Nat → Option Nat
  | [], depth => some depth
  | c :: cs, depth =>
    if c = '(' then parenDepth cs (depth + 1)
    else if c = ')' then
      match depth with
      | 0 => none
      | k + 1 => parenDepth cs k
    else parenDepth cs depth

/-- Every parenthesis of the text has its partner. -/
def parensBalanced (sql : String) : Bool := parenDepth sql.toList 0 == some 0

/-- A lexical unit of a statement text. -/
inductive Token where
  /-- A name, a keyword or a number. -/
  | word (text : List Char)
  /-- A placeholder `@name`. -/
  | param (name : List Char)
  /-- Any other character that is not white space. -/
  | sym (c : Char)
deriving DecidableEq, Repr

/-- Characters of names, keywords and numbers. -/
def isWordChar (c : Char) : Bool := c.isAlphanum || c == '_'

/-- White space between tokens. -/
def isSpace (c : Char) : Bool := c == ' ' || c == '\t' || c == '\n' || c == '\r'

/-- One step of the lexer, which reads the text from its end: `st.1` holds the tokens of the text
already read, and `st.2` tells whether the first of them is a word that starts right after `c`. -/
def lexStep (c : Char) (st : List Token × Bool) : List Token × Bool :=
  if isSpace c then (st.1, false)
  else if isWordChar c then
    match st with
    | (Token.word w :: ts, true) => (Token.word (c :: w) :: ts, true)
    | (ts, _) => (Token.word [c] :: ts, true)
  else if c == '@' then
    match st with
    | (Token.word w :: ts, true) => (Token.param w :: ts, false)
    | (ts, _) => (Token.sym c :: ts, false)
  else (Token.sym c :: st.1, false)

/-- The tokens of a statement text, in order. -/
def tokens (sql : String) : List Token := (sql.toList.foldr lexStep ([], false)).1

/-- Words after which an expression, hence a placeholder, may begin. -/
def keywords : List String :=
  ["SELECT", "FROM", "WHERE", "AND", "OR", "NOT", "IN", "LIKE", "BETWEEN", "LIMIT", "OFFSET",
   "BY", "ON", "WHEN", "THEN", "ELSE", "CASE", "HAVING", "RETURNING", "DISTINCT", "ALL", "ANY",
   "IS", "AS", "SET", "VALUES", "INTO", "UPDATE", "DELETE", "INSERT"]

/-- The word is a keyword, in any letter case. -/
def isKeyword (w : List Char) : Bool := keywords.contains (String.mk (w.map Char.toUpper))

/-- The token ends an operand: a name or number, a placeholder, a closing parenthesis. -/
def endsOperand : Token → Bool
  | .word w => !isKeyword w
  | .param _ => true
  | .sym c => c == ')'

/-- Some placeholder comes directly after an operand, with no operator, comma or keyword
between them. -/
def operandBeforeParam : List Token → Bool
  | [] => false
  | t :: ts =>
    (match ts with
      | Token.param _ :: _ => endsOperand t
      | _ => false) || operandBeforeParam ts

/-- The text passes both syntax checks. -/
def sqlSyntaxOK (sql : String) : Bool :=
  parensBalanced sql && !operandBeforeParam (tokens sql)

/-! ### Values and comparisons of the store -/

/-- Comparison of two texts by code point, character by character (`<` on text). -/
def textLess : List Char → List Char → Bool
  | [], [] => false
  | [], _ :: _ => true
  | _ :: _, [] => false
  | a :: as, b :: bs => decide (a.toNat < b.toNat) || (a.toNat == b.toNat && textLess as bs)

/-- The test `column IS NULL`. -/
def isNull {α : Type} (column : Option α) : Bool := column.isNone

/-- The test `column = @arg` of a WHERE clause; it does not hold for a NULL column. -/
def sqlEq {α : Type} [DecidableEq α] (column : Option α) (arg : α) : Bool := column == some arg

/-- The test `column <= @arg` of a WHERE clause on text; it does not hold for a NULL column. -/
def sqlLE (column : Option String) (arg : String) : Bool :=
  match column with
  | none => false
  | some c => !textLess arg.toList c.toList

/-- The test `column >= @arg` of a WHERE clause on text; it does not hold for a NULL column. -/
def sqlGE (column : Option String) (arg : String) : Bool :=
  match column with
  | none => false
  | some c => !textLess c.toList arg.toList

/-- The select list `service_name, user_id, price, start_date, end_date` of one row. -/
def TableRow.columns (r : TableRow) : Tuple :=
  [(r.service_name.map Value.text).getD .null,
   (r.user_id.map Value.uuid).getD .null,
   (r.price.map Value.int).getD .null,
   (r.start_date.map Value.text).getD .null,
   (r.end_date.map Value.text).getD .null]

/-- The argument `@name` as a UUID. -/
def argUUID (args : NamedArgs) (name : String) : Option UUID :=
  match args.lookup name with
  | some (.uuid u) => some u
  | _ => none

/-- The argument `@name` as text. -/
def argText (args : NamedArgs) (name : String) : Option String :=
  match args.lookup name with
  | some (.text s) => some s
  | _ => none

/-- The argument `@name` as an integer. -/
def argInt (args : NamedArgs) (name : String) : Option Int :=
  match args.lookup name with
  | some (.int n) => some n
  | _ => none

/-! ### Readings of the statements -/

/-- The clause `WHERE user_id = @user_id and service_name = @service_name` of the SELECT of
`GetSubscription` and, with `AND`, of the DELETE. -/
def keyWhere (user_id : UUID) (service_name : String) (r : TableRow) : Bool :=
  sqlEq r.user_id user_id && sqlEq r.service_name service_name

/-- The SELECT of `GetSubscription`: the rows of the key, with the five columns of the select
list. -/
def selectSubscription (t : Table) (user_id : UUID) (service_name : String) : List Tuple :=
  (t.filter (keyWhere user_id service_name)).map TableRow.columns

/-- The INSERT of `CreateSubscription`: one new row with the five arguments. -/
def insertSubscription (t : Table) (user_id : UUID) (service_name : String) (price : Int)
    (start_date end_date : String) : Table :=
  t ++ [{ user_id := some user_id, service_name := some service_name, price := some price,
          start_date := some start_date, end_date := some end_date }]

/-- The DELETE of `DeleteSubscription`: the rows of the key go. -/
def deleteSubscription (t : Table) (user_id : UUID) (service_name : String) : Table :=
  t.filter (fun r => !keyWhere user_id service_name r)

/-- The order `ORDER BY start_date DESC` between two rows: `a` may come before `b`. NULL sorts
first in a descending order. -/
def startDateDesc (a b : TableRow) : Bool :=
  match a.start_date, b.start_date with
  | none, _ => true
  | some _, none => false
  | some x, some y => !textLess x.toList y.toList

/-- The rows of `WHERE user_id = @user_id ORDER BY start_date DESC`; rows with equal
`start_date` keep the order they have in the table. -/
def userRowsByStartDateDesc (t : Table) (user_id : UUID) : List TableRow :=
  (t.filter (fun r => sqlEq r.user_id user_id)).insertionSort (fun a b => startDateDesc a b = true)

/-- The rows of `LIMIT 10 OFFSET offset` of the ordered rows of a user. -/
def pageRows (t : Table) (user_id : UUID) (offset : Nat) : List TableRow :=
  ((userRowsByStartDateDesc t user_id).drop offset).take 10

/-- The SELECT of `ListSubscriptions`, with `OFFSET 10*(@page-1)` in exact integer arithmetic; a
negative offset is an error of the store. -/
def selectPage (t : Table) (user_id : UUID) (page : Int) : pgx.Rows :=
  let offset := 10 * (page - 1)
  if offset < 0 then { tuples := [], err := some (.driver "OFFSET must not be negative") }
  else { tuples := (pageRows t user_id offset.toNat).map TableRow.columns }

/-- The clause `WHERE user_id = @user_id AND (service_name IS NULL OR service_name =
@service_name) AND start_date <= @start_date AND (end_date IS NULL OR end_date >= @end_date)` of
the SELECT of `SubscriptionTotalCost` (lines 143-146). -/
def totalCostWhere (user_id : UUID) (service_name start_date end_date : String)
    (r : TableRow) : Bool :=
  sqlEq r.user_id user_id
    && (isNull r.service_name || sqlEq r.service_name service_name)
    && sqlLE r.start_date start_date
    && (isNull r.end_date || sqlGE r.end_date end_date)

/-- The function `COALESCE(a, b)`: the first argument that is not NULL. -/
def COALESCE {α : Type} (a b : Option α) : Option α :=
  match a with
  | some x => some x
  | none => b

/-- The function `GREATEST(a, b)` on text: the larger argument; NULL arguments are ignored. -/
def GREATEST (a b : Option String) : Option String :=
  match a, b with
  | none, b => b
  | some x, none => some x
  | some x, some y => if textLess x.toList y.toList then some y else some x

/-- The function `LEAST(a, b)` on text: the smaller argument; NULL arguments are ignored. -/
def LEAST (a b : Option String) : Option String :=
  match a, b with
  | none, b => b
  | some x, none => some x
  | some x, some y => if textLess y.toList x.toList then some y else some x

/-- The expression `GREATEST(start_date, @start_date)` of the select list of
`SubscriptionTotalCost` (lines 134 and 138): the start of the clipped interval. -/
def clipStart (r : TableRow) (start_date : String) : Option String :=
  GREATEST r.start_date (some start_date)

/-- The expression `LEAST(COALESCE(end_date, @end_date), @end_date)` of the select list of
`SubscriptionTotalCost` (line 137): the end of the clipped interval. -/
def clipEnd (r : TableRow) (end_date : String) : Option String :=
  LEAST (COALESCE r.end_date (some end_date)) (some end_date)

/-! ### The store as a pool -/

/-- The error of the store for a text that fails the syntax checks. -/
def syntaxError : Error := .driver "syntax error"

/-- The error for a text or for arguments outside the statements modelled here. -/
def notModelled : Error := .driver "statement not modelled"

/-- The relational store behind `pgxpool`, as far as this program uses it. A text that fails the
syntax checks is rejected whatever its arguments; of the texts that pass them, the INSERT and the
DELETE run by `Exec`, the SELECT of `ListSubscriptions` by `Query` and the SELECT of
`GetSubscription` by `QueryRow`, which returns the first row. -/
def postgres : databaseInterface Table where
  Exec t sql args :=
    if !sqlSyntaxOK sql then (.error syntaxError, t)
    else if sql = createSQL then
      match argUUID args "user_id", argText args "service_name", argInt args "price",
          argText args "start_date", argText args "end_date" with
      | some u, some s, some p, some sd, some ed =>
        (.ok { rowsAffected := 1 }, insertSubscription t u s p sd ed)
      | _, _, _, _, _ => (.error notModelled, t)
    else if sql = deleteSQL then
      match argUUID args "user_id", argText args "service_name" with
      | some u, some s =>
        (.ok { rowsAffected := (t.filter (keyWhere u s)).length }, deleteSubscription t u s)
      | _, _ => (.error notModelled, t)
    else (.error notModelled, t)
  Query t sql args :=
    if !sqlSyntaxOK sql then .error syntaxError
    else if sql = listSQL then
      match argUUID args "user_id", argInt args "page" with
      | some u, some p => .ok (selectPage t u p)
      | _, _ => .error notModelled
    else .error notModelled
  QueryRow t sql args :=
    if !sqlSyntaxOK sql then .failed syntaxError
    else if sql = getSQL then
      match argUUID args "user_id", argText args "service_name" with
      | some u, some s =>
        match selectSubscription t u s with
        | [] => .empty
        | row :: _ => .first row
      | _, _ => .failed notModelled
    else .failed notModelled

/-- A `Database` on the relational store holding the rows `t`. -/
def Database.on (t : Table) : Database Table := { pool := postgres, conn := t }

/-- A pool with canned answers, like the `pgxmock` pool of `database_test.go`: every `Exec`,
`Query` and `QueryRow` gets the given answer, whatever the text and the arguments. -/
def mockPool (exec : Except Error CommandTag) (query : Except Error pgx.Rows) (row : pgx.Row) :
    databaseInterface Unit where
  Exec _ _ _ := (exec, ())
  Query _ _ _ := query
  QueryRow _ _ _ := row

/-! ## Example data -/

/-- A user. -/
def userU : UUID := 7

/-- The row of a subscription of `userU` to Yandex Plus at 299 a month, from 2024-01 to
2024-12. -/
def yandexRow : TableRow :=
  { user_id := some userU, service_name := some "Yandex Plus", price := some 299,
    start_date := some "2024-01", end_date := some "2024-12" }

/-- The subscription of the scenario: Netflix at 999 a month, from 2025-01 to 2025-06. -/
def netflix : Subscription :=
  { UserID := userU, ServiceName := "Netflix", Price := 999,
    StartDate := { year := 2025, month := 1 }, EndDate := { year := 2025, month := 6 } }

/-- The row that `CreateSubscription netflix` writes. -/
def netflixRow : TableRow :=
  { user_id := some userU, service_name := some "Netflix", price := some 999,
    start_date := some "2025-01", end_date := some "2025-06" }

/-- A Netflix subscription with `EndDate` left out, at its zero value. -/
def openEnded : Subscription :=
  { UserID := userU, ServiceName := "Netflix", Price := 999,
    StartDate := { year := 2025, month := 1 } }

/-- New values for the Netflix subscription of `userU`. -/
def netflixUpdate : Subscription :=
  { UserID := userU, ServiceName := "Netflix", Price := 1099,
    StartDate := { year := 2025, month := 3 }, EndDate := { year := 2025, month := 9 } }

/-- A `Database` on a pool with canned answers. -/
def Database.mock (exec : Except Error CommandTag) (query : Except Error pgx.Rows)
    (row : pgx.Row) : Database Unit :=
  { pool := mockPool exec query row, conn := () }

/-- A mock database whose `QueryRow` answers the given row. -/
def Database.mockRow (row : pgx.Row) : Database Unit :=
  Database.mock (.ok { rowsAffected := 0 }) (.ok { tuples := [] }) row

/-- The number written by decimal digits. -/
def decimal (cs : List Char) : Nat := cs.foldl (fun n c => 10 * n + (c.toNat - 48)) 0

/-- A well-formed `YYYY-MM`, in the words of the specification: a four-digit year, a dash, a
two-digit month from 01 to 12, and nothing else. -/
def wellFormedYearMonth (s : String) : Bool :=
  s.toList.length == 7
    && (s.toList.take 4).all Char.isDigit
    && (s.toList.drop 4).take 1 == ['-']
    && (s.toList.drop 5).all Char.isDigit
    && decide (1 ≤ decimal (s.toList.drop 5)) && decide (decimal (s.toList.drop 5) ≤ 12)


/-- The row of a subscription of `userU` that starts in month `m` of 2024. -/
def monthRow (m : Nat) : TableRow :=
  { user_id := some userU,
    service_name := some ("Service " ++ ({ year := 2024, month := m } : time.Time).Format),
    price := some 100,
    start_date := some ({ year := 2024, month := m } : time.Time).Format,
    end_date := some "2024-12" }

/-- The subscription that `monthRow m` holds. -/
def monthSubscription (m : Nat) : Subscription :=
  { UserID := userU,
    ServiceName := "Service " ++ ({ year := 2024, month := m } : time.Time).Format,
    Price := 100,
    StartDate := { year := 2024, month := m },
    EndDate := { year := 2024, month := 12 } }

/-- A table with twelve subscriptions of `userU`, one starting in each month of 2024 from January
to December, and one row of another user. -/
def yearTable : Table :=
  (List.range 12).map (fun i => monthRow (i + 1))
    ++ [{ user_id := some 8, service_name := some "Netflix", price := some 999,
          start_date := some "2024-07", end_date := some "2024-12" }]

/-- The invariant of the data model on one stored row: when `end_date` is present, `start_date`
is present and is not after it, in the order of the store on text. -/
def rowInvariant (r : TableRow) : Bool :=
  match r.end_date with
  | none => true
  | some e =>
    match r.start_date with
    | none => false
    | some s => !textLess e.toList s.toList

/-- The invariant of the data model on the table: every row satisfies it. -/
def storeInvariant (t : Table) : Bool := t.all rowInvariant

/-- A month of the calendar with a year of four digits, as a `time.Time` of any day and time. -/
def validMonth (t : time.Time) : Prop :=
  0 ≤ t.year ∧ t.year ≤ 9999 ∧ 1 ≤ t.month ∧ t.month ≤ 12

instance (t : time.Time) : Decidable (validMonth t) := by
  unfold validMonth; infer_instance

/-- A Netflix subscription whose end, 2025-01, is before its start, 2025-06. -/
def reversed : Subscription :=
  { UserID := userU, ServiceName := "Netflix", Price := 999,
    StartDate := { year := 2025, month := 6 }, EndDate := { year := 2025, month := 1 } }

/-- An older, open-ended row of `userU` for Yandex Plus: 199 a month from 2023-11, with NULL
`end_date`. -/
def yandexOpenRow : TableRow :=
  { user_id := some userU, service_name := some "Yandex Plus", price := some 199,
    start_date := some "2023-11", end_date := none }

/-- Two rows as `Query` delivers them, the second with a start text that is no month. -/
def secondRowBroken : List Tuple :=
  [[.text "Kion", .uuid userU, .int 199, .text "2024-02", .text "2024-11"],
   [.text "Netflix", .uuid userU, .int 999, .text "25-01", .text "2025-06"]]

/-! # Theorems -/

set_option maxRecDepth 100000

/-! ## The statement texts against the syntax checks -/

theorem getSQL_accepted : sqlSyntaxOK getSQL = true := by decide

theorem createSQL_accepted : sqlSyntaxOK createSQL = true := by decide

theorem deleteSQL_accepted : sqlSyntaxOK deleteSQL = true := by decide

theorem listSQL_accepted : sqlSyntaxOK listSQL = true := by decide

theorem updateSQL_rejected : sqlSyntaxOK updateSQL = false := by decide

theorem totalCostSQL_rejected : sqlSyntaxOK totalCostSQL = false := by decide

theorem deleteSQL_ne_createSQL : deleteSQL ≠ createSQL := by decide

/-! ## The operations on the relational store -/

theorem postgres_SubscriptionTotalCost (t : Table) (u : UUID) (s a b : String) :
    (Database.on t).SubscriptionTotalCost u s a b
      = (none, some (.Errorf "error scanning row" syntaxError)) := by
  simp [Database.SubscriptionTotalCost, Database.on, postgres, totalCostSQL_rejected,
    pgx.Row.tuple, bind, Except.bind, syntaxError]

theorem postgres_UpdateSubscription (t : Table) (sub : Subscription) :
    (Database.on t).UpdateSubscription sub
      = ((none, some (.Errorf "error updating subscription" syntaxError)), Database.on t) := by
  simp [Database.UpdateSubscription, Database.on, postgres, updateSQL_rejected]

theorem postgres_CreateSubscription (t : Table) (sub : Subscription) :
    (Database.on t).CreateSubscription sub
      = ((some sub, none), Database.on (insertSubscription t sub.UserID sub.ServiceName sub.Price
          sub.StartDate.Format sub.EndDate.Format)) := by
  simp [Database.CreateSubscription, Database.on, postgres, createSQL_accepted, subscriptionArgs,
    argUUID, argText, argInt, List.lookup]

theorem postgres_DeleteSubscription (t : Table) (u : UUID) (s : String) :
    (Database.on t).DeleteSubscription u s = (none, Database.on (deleteSubscription t u s)) := by
  simp [Database.DeleteSubscription, Database.on, postgres, deleteSQL_accepted,
    deleteSQL_ne_createSQL, argUUID, argText, List.lookup]

theorem postgres_GetSubscription_scan (t : Table) (u : UUID) (s : String) :
    GetSubscription.scan (Database.on t) u s
      = match selectSubscription t u s with
        | [] => .error .ErrNoRows
        | _ :: _ => .error countMismatch := by
  simp only [GetSubscription.scan, Database.on, postgres, getSQL_accepted, argUUID, argText,
    List.lookup]
  simp
  cases h : selectSubscription t u s with
  | nil => simp [pgx.Row.tuple, bind, Except.bind]
  | cons r rs =>
    have hr : r ∈ selectSubscription t u s := by simp [h]
    simp only [selectSubscription, List.mem_map] at hr
    obtain ⟨x, _, rfl⟩ := hr
    simp [pgx.Row.tuple, bind, Except.bind, TableRow.columns, Tuple.Scan4]

theorem postgres_GetSubscription_absent (t : Table) (u : UUID) (s : String)
    (h : t.filter (keyWhere u s) = []) : (Database.on t).GetSubscription u s = (none, none) := by
  simp [Database.GetSubscription, postgres_GetSubscription_scan, selectSubscription, h]

/-! ## Order of texts and of parsed months -/

theorem Char.toNat_injective {a b : Char} (h : a.toNat = b.toNat) : a = b := by
  apply Char.ext
  apply UInt32.ext
  exact h

theorem textLess_irrefl (a : List Char) : textLess a a = false := by
  induction a with
  | nil => rfl
  | cons c cs ih => simp [textLess, ih]

theorem textLess_trans : ∀ (a b c : List Char), textLess a b = true → textLess b c = true →
    textLess a c = true
  | [], [], _, h, _ => by simp [textLess] at h
  | [], _ :: _, [], _, h => by simp [textLess] at h
  | [], _ :: _, _ :: _, _, _ => by simp [textLess]
  | _ :: _, [], _, h, _ => by simp [textLess] at h
  | _ :: _, _ :: _, [], _, h => by simp [textLess] at h
  | x :: xs, y :: ys, z :: zs, h1, h2 => by
    simp only [textLess, Bool.or_eq_true, decide_eq_true_eq, Bool.and_eq_true, beq_iff_eq] at *
    rcases h1 with h1 | ⟨h1, h1'⟩ <;> rcases h2 with h2 | ⟨h2, h2'⟩
    · left; omega
    · left; omega
    · left; omega
    · right; exact ⟨by omega, textLess_trans xs ys zs h1' h2'⟩

theorem textLess_total : ∀ (a b : List Char), textLess a b = false → textLess b a = false → a = b
  | [], [], _, _ => rfl
  | [], _ :: _, h, _ => by simp [textLess] at h
  | _ :: _, [], _, h => by simp [textLess] at h
  | x :: xs, y :: ys, h1, h2 => by
    simp only [textLess, Bool.or_eq_false_iff, decide_eq_false_iff_not, Bool.and_eq_false_iff,
      beq_eq_false_iff_ne, ne_eq] at h1 h2
    have hxy : x.toNat = y.toNat := by omega
    have hx : x = y := Char.toNat_injective hxy
    subst hx
    have := textLess_total xs ys (by simpa using h1.2) (by simpa using h2.2)
    rw [this]

theorem isDigit_iff (c : Char) : time.isDigit c = true ↔ 48 ≤ c.toNat ∧ c.toNat ≤ 57 := by
  simp only [time.isDigit, Bool.and_eq_true, decide_eq_true_eq]
  constructor
  · rintro ⟨h1, h2⟩
    exact ⟨h1, h2⟩
  · rintro ⟨h1, h2⟩
    exact ⟨h1, h2⟩

theorem Parse_ok_elim {x : String} {tx : time.Time} (h : time.Parse x = .ok tx) :
    ∃ y1 y2 y3 y4 m1 m2 : Char, x.toList = [y1, y2, y3, y4, '-', m1, m2]
      ∧ time.isDigit y1 = true ∧ time.isDigit y2 = true ∧ time.isDigit y3 = true
      ∧ time.isDigit y4 = true ∧ time.isDigit m1 = true ∧ time.isDigit m2 = true
      ∧ 1 ≤ time.digit m1 * 10 + time.digit m2 ∧ time.digit m1 * 10 + time.digit m2 ≤ 12
      ∧ tx = { year := ((time.digit y1 * 1000 + time.digit y2 * 100 + time.digit y3 * 10
                  + time.digit y4 : Nat) : Int),
               month := time.digit m1 * 10 + time.digit m2, day := 1, nsec := 0 } := by
  unfold time.Parse at h
  split at h
  · rename_i y1 y2 y3 y4 dash m1 m2 hx
    split at h
    · rename_i hd
      simp only [Bool.and_eq_true, beq_iff_eq] at hd
      obtain ⟨⟨⟨⟨⟨⟨h1, h2⟩, h3⟩, h4⟩, h5⟩, h6⟩, h7⟩ := hd
      subst h5
      simp only at h
      split at h
      · cases h
      · rename_i hm
        injection h with h
        exact ⟨y1, y2, y3, y4, m1, m2, hx, h1, h2, h3, h4, h6, h7, by omega, by omega, h.symm⟩
    · cases h
  · cases h

theorem digit_of_isDigit {c : Char} (h : time.isDigit c = true) :
    c.toNat = time.digit c + 48 ∧ time.digit c ≤ 9 := by
  rw [isDigit_iff] at h
  have : time.digit c = c.toNat - 48 := rfl
  omega

theorem Parse_antitone {x y : String} {tx ty : time.Time} (hx : time.Parse x = .ok tx)
    (hy : time.Parse y = .ok ty) (h : textLess x.toList y.toList = false) :
    time.Time.le ty tx := by
  obtain ⟨a1, a2, a3, a4, a5, a6, hxl, ha1, ha2, ha3, ha4, ha5, ha6, -, -, rfl⟩ := Parse_ok_elim hx
  obtain ⟨b1, b2, b3, b4, b5, b6, hyl, hb1, hb2, hb3, hb4, hb5, hb6, -, -, rfl⟩ := Parse_ok_elim hy
  rw [hxl, hyl] at h
  have := digit_of_isDigit ha1
  have := digit_of_isDigit ha2
  have := digit_of_isDigit ha3
  have := digit_of_isDigit ha4
  have := digit_of_isDigit ha5
  have := digit_of_isDigit ha6
  have := digit_of_isDigit hb1
  have := digit_of_isDigit hb2
  have := digit_of_isDigit hb3
  have := digit_of_isDigit hb4
  have := digit_of_isDigit hb5
  have := digit_of_isDigit hb6
  simp only [textLess, Bool.or_eq_false_iff, decide_eq_false_iff_not, Bool.and_eq_false_iff,
    beq_eq_false_iff_ne, ne_eq, Bool.or_false, Bool.and_false, beq_self_eq_true, Bool.true_and,
    lt_self_iff_false, decide_False, Bool.false_or, not_true_eq_false, false_or, not_lt] at h
  unfold time.Time.le
  simp only [Nat.cast_lt, Nat.cast_inj, le_refl, and_true, lt_self_iff_false, false_or]
  omega

theorem isDigit_eq (c : Char) : time.isDigit c = c.isDigit := by
  simp only [time.isDigit, Char.isDigit]
  rfl

theorem Parse_ok_iff_wellFormed (v : String) :
    (∃ t, time.Parse v = .ok t) ↔ wellFormedYearMonth v = true := by
  unfold time.Parse wellFormedYearMonth decimal
  generalize v.toList = cs
  rcases cs with _ | ⟨c1, _ | ⟨c2, _ | ⟨c3, _ | ⟨c4, _ | ⟨c5, _ | ⟨c6, _ | ⟨c7, _ | ⟨c8, cs⟩⟩⟩⟩⟩⟩⟩⟩ <;>
    simp [isDigit_eq, time.digit]
  by_cases h1 : c1.isDigit = true <;> by_cases h2 : c2.isDigit = true <;>
    by_cases h3 : c3.isDigit = true <;> by_cases h4 : c4.isDigit = true <;>
    by_cases h5 : c5 = '-' <;> by_cases h6 : c6.isDigit = true <;>
    by_cases h7 : c7.isDigit = true <;> simp [h1, h2, h3, h4, h5, h6, h7]
  constructor
  · rintro ⟨t, ht⟩
    split at ht
    · cases ht
    · omega
  · intro h
    rw [if_neg (by omega)]
    exact ⟨_, rfl⟩


/-! ## The loop and the pages of `ListSubscriptions` -/

theorem startDateDesc_total (a b : TableRow) :
    startDateDesc a b = true ∨ startDateDesc b a = true := by
  unfold startDateDesc
  cases ha : a.start_date with
  | none => simp
  | some x =>
    cases hb : b.start_date with
    | none => simp
    | some y =>
      simp only [Bool.not_eq_true']
      by_cases h : textLess x.toList y.toList = true
      · right
        cases h' : textLess y.toList x.toList with
        | false => rfl
        | true =>
          have := textLess_trans _ _ _ h h'
          rw [textLess_irrefl] at this
          cases this
      · left
        simpa using h

theorem startDateDesc_trans (a b c : TableRow) (hab : startDateDesc a b = true)
    (hbc : startDateDesc b c = true) : startDateDesc a c = true := by
  unfold startDateDesc at *
  cases ha : a.start_date with
  | none => simp
  | some x =>
    cases hb : b.start_date with
    | none => simp [ha, hb] at hab
    | some y =>
      cases hc : c.start_date with
      | none => simp [hb, hc] at hbc
      | some z =>
        simp only [ha, hb, hc, Bool.not_eq_true'] at hab hbc ⊢
        cases hxz : textLess x.toList z.toList with
        | false => rfl
        | true =>
          cases hyx : textLess y.toList x.toList with
          | false =>
            have := textLess_total _ _ hab hyx
            rw [this] at hxz
            rw [hxz] at hbc
            cases hbc
          | true =>
            have := textLess_trans _ _ _ hyx hxz
            rw [this] at hbc
            cases hbc

theorem userRows_sorted (t : Table) (u : UUID) :
    (userRowsByStartDateDesc t u).Pairwise (fun a b => startDateDesc a b = true) := by
  haveI : IsTotal TableRow (fun a b => startDateDesc a b = true) := ⟨startDateDesc_total⟩
  haveI : IsTrans TableRow (fun a b => startDateDesc a b = true) := ⟨startDateDesc_trans⟩
  exact List.sorted_insertionSort _ _

theorem userRows_perm (t : Table) (u : UUID) :
    (userRowsByStartDateDesc t u).Perm (t.filter (fun r => sqlEq r.user_id u)) :=
  List.perm_insertionSort _ _

theorem loop_ok (ts : List Tuple) (subs : List Subscription)
    (h : List.Forall₂ (fun t sub => ListSubscriptions.row t = .ok sub) ts subs) :
    ∀ acc : Option (List Subscription), ListSubscriptions.loop ts acc
      = .ok (if subs = [] then acc else some (acc.getD [] ++ subs)) := by
  induction h with
  | nil => intro acc; simp [ListSubscriptions.loop]
  | cons hrow _ ih =>
    intro acc
    simp [ListSubscriptions.loop, hrow, ih]

theorem loop_ok_inv : ∀ (ts : List Tuple) (acc res : Option (List Subscription)),
    ListSubscriptions.loop ts acc = .ok res →
    ∃ subs, List.Forall₂ (fun t sub => ListSubscriptions.row t = .ok sub) ts subs
      ∧ res = (if subs = [] then acc else some (acc.getD [] ++ subs))
  | [], acc, res, h => by
    simp only [ListSubscriptions.loop, Except.ok.injEq] at h
    exact ⟨[], .nil, by simp [h]⟩
  | t :: ts, acc, res, h => by
    simp only [ListSubscriptions.loop] at h
    split at h
    · cases h
    · rename_i sub hsub
      obtain ⟨subs, hs, hres⟩ := loop_ok_inv ts _ res h
      refine ⟨sub :: subs, .cons hsub hs, ?_⟩
      rw [hres]
      by_cases he : subs = [] <;> simp [he]

theorem loop_error_of_mem : ∀ (ts : List Tuple) (acc : Option (List Subscription)) (t : Tuple)
    (err : Error), t ∈ ts → ListSubscriptions.row t = .error err →
    ∃ e, ListSubscriptions.loop ts acc = .error e
  | [], _, _, _, h, _ => by cases h
  | x :: xs, acc, t, err, h, herr => by
    simp only [ListSubscriptions.loop]
    split
    · exact ⟨_, rfl⟩
    · rename_i sub hsub
      rcases List.mem_cons.1 h with rfl | h
      · rw [herr] at hsub; cases hsub
      · exact loop_error_of_mem xs _ t err h herr

theorem selectPage_of_pos (t : Table) (u : UUID) (page : Int) (hpage : 1 ≤ page) :
    selectPage t u page
      = { tuples := (pageRows t u (10 * (page - 1)).toNat).map TableRow.columns } := by
  have h : ¬ (10 * (page - 1) < 0) := by omega
  unfold selectPage
  exact if_neg h

theorem postgres_ListSubscriptions (t : Table) (u : UUID) (page : Int) (hpage : 1 ≤ page) :
    (Database.on t).ListSubscriptions u page
      = match ListSubscriptions.loop
          ((pageRows t u (10 * (page - 1)).toNat).map TableRow.columns) none with
        | .error err => (none, some err)
        | .ok subs => (subs, none) := by
  simp only [Database.ListSubscriptions, Database.on, postgres, listSQL_accepted, argUUID, argInt,
    List.lookup]
  simp [selectPage_of_pos t u page hpage]


theorem Scan5_ok {α β γ δ ε : Type} {d1 : Value → Except Error α} {d2 : Value → Except Error β}
    {d3 : Value → Except Error γ} {d4 : Value → Except Error δ} {d5 : Value → Except Error ε}
    {a b c d e : Value} {x : α × β × γ × δ × ε}
    (h : Tuple.Scan5 d1 d2 d3 d4 d5 [a, b, c, d, e] = .ok x) :
    d1 a = .ok x.1 ∧ d2 b = .ok x.2.1 ∧ d3 c = .ok x.2.2.1 ∧ d4 d = .ok x.2.2.2.1
      ∧ d5 e = .ok x.2.2.2.2 := by
  cases h1 : d1 a <;> cases h2 : d2 b <;> cases h3 : d3 c <;> cases h4 : d4 d <;>
    cases h5 : d5 e <;>
    simp_all [Tuple.Scan5, bind, Except.bind, pure, Except.pure]
  subst h
  simp

theorem scanString_ok {v : Value} {s : String} (h : scanString v = .ok s) : v = .text s := by
  cases v <;> simp_all [scanString]

theorem row_ok_elim {t : Tuple} {sub : Subscription} (h : ListSubscriptions.row t = .ok sub) :
    ∃ name user price startDate endDate,
      Tuple.Scan5 scanString scanUUID scanInt32 scanString scanString t
        = .ok (name, user, price, startDate, endDate)
      ∧ time.Parse startDate = .ok sub.StartDate ∧ time.Parse endDate = .ok sub.EndDate := by
  unfold ListSubscriptions.row at h
  split at h
  · cases h
  · rename_i name user price startDate endDate hscan
    split at h
    · cases h
    · rename_i start hstart
      split at h
      · cases h
      · rename_i stop hstop
        injection h with h
        subst h
        exact ⟨name, user, price, startDate, endDate, hscan, hstart, hstop⟩

theorem row_ok_start {r : TableRow} {sub : Subscription}
    (h : ListSubscriptions.row r.columns = .ok sub) :
    ∃ sd, r.start_date = some sd ∧ time.Parse sd = .ok sub.StartDate := by
  obtain ⟨name, user, price, startDate, endDate, hscan, hstart, -⟩ := row_ok_elim h
  have h4 := (Scan5_ok hscan).2.2.2.1
  have h4' := scanString_ok h4
  refine ⟨startDate, ?_, hstart⟩
  cases hsd : r.start_date with
  | none => simp [hsd] at h4'
  | some x => simpa [hsd] using h4'

theorem forall₂_mem_right {α β : Type} {D : α → β → Prop} :
    ∀ {as : List α} {bs : List β}, List.Forall₂ D as bs → ∀ b ∈ bs, ∃ a ∈ as, D a b
  | _, _, .nil, b, hb => by cases hb
  | _, _, .cons (a := a) h hs, b, hb => by
    rcases List.mem_cons.1 hb with rfl | hb
    · exact ⟨a, List.mem_cons_self _ _, h⟩
    · obtain ⟨a', ha', hd⟩ := forall₂_mem_right hs b hb
      exact ⟨a', List.mem_cons_of_mem _ ha', hd⟩

theorem pairwise_of_forall₂ {α β : Type} {R : α → α → Prop} {Q : β → β → Prop}
    {D : α → β → Prop} (hRQ : ∀ a1 a2 b1 b2, D a1 b1 → D a2 b2 → R a1 a2 → Q b1 b2) :
    ∀ {as : List α} {bs : List β}, List.Forall₂ D as bs → as.Pairwise R → bs.Pairwise Q
  | _, _, .nil, _ => List.Pairwise.nil
  | _, _, .cons h hs, hp => by
    rw [List.pairwise_cons] at hp ⊢
    refine ⟨?_, pairwise_of_forall₂ hRQ hs hp.2⟩
    intro b hb
    obtain ⟨a', ha', hd⟩ := forall₂_mem_right hs b hb
    exact hRQ _ _ _ _ h hd (hp.1 a' ha')

theorem decoded_descending {r1 r2 : TableRow} {s1 s2 : Subscription}
    (h1 : ListSubscriptions.row r1.columns = .ok s1)
    (h2 : ListSubscriptions.row r2.columns = .ok s2) (h : startDateDesc r1 r2 = true) :
    time.Time.le s2.StartDate s1.StartDate := by
  obtain ⟨x, hx, hpx⟩ := row_ok_start h1
  obtain ⟨y, hy, hpy⟩ := row_ok_start h2
  simp only [startDateDesc, hx, hy, Bool.not_eq_true'] at h
  exact Parse_antitone hpx hpy h

theorem pageRows_pairwise (t : Table) (u : UUID) (n : Nat) :
    (pageRows t u n).Pairwise (fun a b => startDateDesc a b = true) :=
  ((userRows_sorted t u).sublist (List.drop_sublist _ _)).sublist (List.take_sublist _ _)

theorem pageRows_append (t : Table) (u : UUID) (n : Nat) :
    pageRows t u n ++ pageRows t u (n + 10) = ((userRowsByStartDateDesc t u).drop n).take 20 := by
  unfold pageRows
  rw [show (20 : Nat) = 10 + 10 from rfl, List.take_add, List.drop_drop]


/-! ## The claims -/

/-- C1, as the code behaves: the store rejects the statement of `SubscriptionTotalCost`, whose
parentheses do not balance. The Yandex Plus row at 299 a month passes the WHERE clause for the
window 2024-01..2024-12, and so does the created Netflix row at 999 for 2025-01..2025-06, but both
calls return no result and an error, not 3588 and 5994. -/
theorem total_cost_of_covering_subscription_is_an_error :
    parensBalanced totalCostSQL = false
    ∧ [yandexRow].filter (totalCostWhere userU "Yandex Plus" "2024-01" "2024-12") = [yandexRow]
    ∧ (Database.on [yandexRow]).SubscriptionTotalCost userU "Yandex Plus" "2024-01" "2024-12"
        = (none, some (.Errorf "error scanning row" syntaxError))
    ∧ ((Database.on []).CreateSubscription netflix).2.conn = [netflixRow]
    ∧ [netflixRow].filter (totalCostWhere userU "Netflix" "2025-01" "2025-06") = [netflixRow]
    ∧ ((Database.on []).CreateSubscription netflix).2.SubscriptionTotalCost
          userU "Netflix" "2025-01" "2025-06"
        = (none, some (.Errorf "error scanning row" syntaxError)) := by
  refine ⟨by decide, by decide, postgres_SubscriptionTotalCost _ _ _ _ _, by decide, by decide, ?_⟩
  rw [postgres_CreateSubscription]
  exact postgres_SubscriptionTotalCost _ _ _ _ _

/-- C2, as the code behaves: with only a Netflix row of `userU` in the store, no row passes the
WHERE clause of a query for Spotify, and `SubscriptionTotalCost` returns no result and an error,
not a total of 0 with a nil error. -/
theorem total_cost_without_qualifying_subscription_is_an_error :
    [netflixRow].filter (totalCostWhere userU "Spotify" "2025-01" "2025-06") = []
    ∧ (Database.on [netflixRow]).SubscriptionTotalCost userU "Spotify" "2025-01" "2025-06"
        = (none, some (.Errorf "error scanning row" syntaxError)) :=
  ⟨by decide, postgres_SubscriptionTotalCost _ _ _ _ _⟩

/-- C3, as the code behaves: called without a service filter (the empty string), the WHERE clause
of `SubscriptionTotalCost` compares `service_name` with the empty string and selects no Netflix
row of the user, although the row passes with its own service name; the call itself returns an
error. -/
theorem total_cost_without_service_filter_selects_nothing :
    [netflixRow].filter (totalCostWhere userU "" "2025-01" "2025-06") = []
    ∧ [netflixRow].filter (totalCostWhere userU "Netflix" "2025-01" "2025-06") = [netflixRow]
    ∧ (Database.on [netflixRow]).SubscriptionTotalCost userU "" "2025-01" "2025-06"
        = (none, some (.Errorf "error scanning row" syntaxError)) :=
  ⟨by decide, by decide, postgres_SubscriptionTotalCost _ _ _ _ _⟩

/-- C4, as the code behaves: `CreateSubscription` of a subscription whose `EndDate` is left at
its zero value stores the text `0001-01` in `end_date`, not NULL, and the WHERE clause of
`SubscriptionTotalCost` does not select that row for the window 2025-01..2025-06; with a NULL
`end_date` the same row is selected. -/
theorem created_without_end_date_is_not_selected :
    openEnded.EndDate.Format = "0001-01"
    ∧ ((Database.on []).CreateSubscription openEnded).2.conn
        = [{ netflixRow with end_date := some "0001-01" }]
    ∧ (((Database.on []).CreateSubscription openEnded).2.conn.filter
          (totalCostWhere userU "Netflix" "2025-01" "2025-06")) = []
    ∧ totalCostWhere userU "Netflix" "2025-01" "2025-06" { netflixRow with end_date := none }
        = true := by
  decide

/-- C5, as the code behaves: `GetSubscription` scans the five selected columns into four
destinations. After `CreateSubscription netflix` on the relational store it returns no record and
the scan error; on a mock row of four columns, as in `TestGetSubscription`, it returns a record
whose `Price` is 0 instead of 999. -/
theorem get_after_create_loses_the_price :
    ((Database.on []).CreateSubscription netflix).1 = (some netflix, none)
    ∧ ((Database.on []).CreateSubscription netflix).2.GetSubscription userU "Netflix"
        = (none, some (.Errorf "error scanning row" countMismatch))
    ∧ (Database.mockRow (.first [.text "Netflix", .uuid userU, .text "2025-01",
          .text "2025-06"])).GetSubscription userU "Netflix"
        = (some { netflix with Price := 0 }, none) := by
  decide

/-- C6: `GetSubscription` on any pool. When `QueryRow` finds no row, the result is empty with a nil
error; when the scan fails with an error other than `pgx.ErrNoRows`, or when the scanned start or
end text does not parse, the result is nil with a non-nil error. -/
theorem GetSubscription_not_found_is_no_error {σ : Type} (d : Database σ) (userID : UUID)
    (serviceName : String) :
    (d.pool.QueryRow d.conn getSQL
          [("user_id", .uuid userID), ("service_name", .text serviceName)] = .empty →
        d.GetSubscription userID serviceName = (none, none))
    ∧ (∀ err, GetSubscription.scan d userID serviceName = .error err → err ≠ .ErrNoRows →
        d.GetSubscription userID serviceName = (none, some (.Errorf "error scanning row" err)))
    ∧ (∀ name user startDate endDate err,
        GetSubscription.scan d userID serviceName = .ok (name, user, startDate, endDate) →
        time.Parse startDate = .error err →
        d.GetSubscription userID serviceName
          = (none, some (.Errorf "error parsing start date" err)))
    ∧ (∀ name user startDate endDate start err,
        GetSubscription.scan d userID serviceName = .ok (name, user, startDate, endDate) →
        time.Parse startDate = .ok start → time.Parse endDate = .error err →
        d.GetSubscription userID serviceName
          = (none, some (.Errorf "error parsing end date" err))) := by
  refine ⟨?_, ?_, ?_, ?_⟩
  · intro h
    simp [Database.GetSubscription, GetSubscription.scan, h, pgx.Row.tuple, bind, Except.bind]
  · intro err h hne
    simp [Database.GetSubscription, h, hne]
  · intro name user startDate endDate err h hs
    simp [Database.GetSubscription, h, hs]
  · intro name user startDate endDate start err h hs he
    simp [Database.GetSubscription, h, hs, he]

/-- Witness of C6 on mock pools: no row; a query that failed; a row whose start text is not a
month; a row whose end text is not a month. -/
theorem GetSubscription_not_found_is_no_error_witness :
    (Database.mockRow .empty).GetSubscription userU "Netflix" = (none, none)
    ∧ (Database.mockRow (.failed (.driver "connection refused"))).GetSubscription userU "Netflix"
        = (none, some (.Errorf "error scanning row" (.driver "connection refused")))
    ∧ (Database.mockRow (.first [.text "Netflix", .uuid userU, .text "2025-1",
          .text "2025-06"])).GetSubscription userU "Netflix"
        = (none, some (.Errorf "error parsing start date" (.parse "2025-1")))
    ∧ (Database.mockRow (.first [.text "Netflix", .uuid userU, .text "2025-01",
          .text "2025-13"])).GetSubscription userU "Netflix"
        = (none, some (.Errorf "error parsing end date" (.parse "2025-13"))) :=
  ⟨(GetSubscription_not_found_is_no_error (Database.mockRow .empty) userU "Netflix").1 rfl,
   (GetSubscription_not_found_is_no_error
      (Database.mockRow (.failed (.driver "connection refused"))) userU "Netflix").2.1
      _ rfl (by decide),
   (GetSubscription_not_found_is_no_error
      (Database.mockRow (.first [.text "Netflix", .uuid userU, .text "2025-1",
        .text "2025-06"])) userU "Netflix").2.2.1 _ _ _ _ _ rfl (by decide),
   (GetSubscription_not_found_is_no_error
      (Database.mockRow (.first [.text "Netflix", .uuid userU, .text "2025-01",
        .text "2025-13"])) userU "Netflix").2.2.2 _ _ _ _ { year := 2025, month := 1 } _ rfl
      (by decide) (by decide)⟩

/-- C7, as the code behaves: the store rejects the statement of `UpdateSubscription`, in which
the placeholder `@service_name` follows the column name with no `=` between them. With the
Netflix row of `userU` in the store, the update of that key returns no record and an error, and
the row keeps its price and dates. -/
theorem update_is_rejected_and_changes_nothing :
    operandBeforeParam (tokens updateSQL) = true
    ∧ operandBeforeParam (tokens deleteSQL) = false
    ∧ ((Database.on [netflixRow]).UpdateSubscription netflixUpdate).1
        = (none, some (.Errorf "error updating subscription" syntaxError))
    ∧ ((Database.on [netflixRow]).UpdateSubscription netflixUpdate).2.conn = [netflixRow] := by
  decide

/-- C8: on the relational store, for every table and every key, `DeleteSubscription` returns a
nil error, whether rows of the key exist or not; it leaves exactly the rows of other keys, and a
following `GetSubscription` of the key returns the empty result with a nil error. -/
theorem delete_then_get_is_empty (t : Table) (userID : UUID) (serviceName : String) :
    ((Database.on t).DeleteSubscription userID serviceName).1 = none
    ∧ ((Database.on t).DeleteSubscription userID serviceName).2.conn
        = t.filter (fun r => !keyWhere userID serviceName r)
    ∧ ((Database.on t).DeleteSubscription userID serviceName).2.GetSubscription
          userID serviceName = (none, none) := by
  rw [postgres_DeleteSubscription]
  refine ⟨rfl, rfl, ?_⟩
  apply postgres_GetSubscription_absent
  simp [deleteSubscription, List.filter_filter]

/-- C9: `ListSubscriptions` on the relational store, for every table, user and page of at least 1.
The ordered rows of the user are a permutation of the user's rows and descend by `start_date`; the
page is their positions `10(page-1)+1` to `10 page`. When every row of the page scans and parses,
the call returns, with a nil error and in the same order, one subscription per row of the page:
at most 10, descending by `StartDate`. Conversely a nil error means that the returned list is
that of the rows of the page. A page and the next one are consecutive slices of the ordered rows,
so no row is returned on both. -/
theorem ListSubscriptions_page (t : Table) (userID : UUID) (page : Int) (hpage : 1 ≤ page) :
    (userRowsByStartDateDesc t userID).Perm (t.filter (fun r => sqlEq r.user_id userID))
    ∧ (userRowsByStartDateDesc t userID).Pairwise (fun a b => startDateDesc a b = true)
    ∧ (∀ subs : List Subscription,
        List.Forall₂ (fun r sub => ListSubscriptions.row r.columns = .ok sub)
          (((userRowsByStartDateDesc t userID).drop (10 * (page - 1)).toNat).take 10) subs →
        ((Database.on t).ListSubscriptions userID page).2 = none
        ∧ ((Database.on t).ListSubscriptions userID page).1.getD [] = subs
        ∧ subs.length ≤ 10
        ∧ subs.Pairwise (fun a b => time.Time.le b.StartDate a.StartDate))
    ∧ (((Database.on t).ListSubscriptions userID page).2 = none →
        List.Forall₂ (fun r sub => ListSubscriptions.row r.columns = .ok sub)
          (((userRowsByStartDateDesc t userID).drop (10 * (page - 1)).toNat).take 10)
          (((Database.on t).ListSubscriptions userID page).1.getD []))
    ∧ ((userRowsByStartDateDesc t userID).drop (10 * (page - 1)).toNat).take 10
        ++ ((userRowsByStartDateDesc t userID).drop (10 * page).toNat).take 10
        = ((userRowsByStartDateDesc t userID).drop (10 * (page - 1)).toNat).take 20 := by
  refine ⟨userRows_perm t userID, userRows_sorted t userID, ?_, ?_, ?_⟩
  · intro subs hsubs
    have hloop := loop_ok _ subs ((List.forall₂_map_left_iff).2 hsubs) none
    have hres := postgres_ListSubscriptions t userID page hpage
    unfold pageRows at hres
    rw [hloop] at hres
    rw [hres]
    refine ⟨rfl, ?_, ?_, ?_⟩
    · by_cases he : subs = [] <;> simp [he]
    · have := hsubs.length_eq
      rw [← this, List.length_take]
      exact Nat.min_le_left _ _
    · exact pairwise_of_forall₂
        (R := fun a b => startDateDesc a b = true)
        (Q := fun a b => time.Time.le b.StartDate a.StartDate)
        (fun _ _ _ _ h1 h2 h => decoded_descending h1 h2 h) hsubs
        (pageRows_pairwise t userID _)
  · intro hnil
    have hres := postgres_ListSubscriptions t userID page hpage
    unfold pageRows at hres
    rw [hres] at hnil ⊢
    split at hnil
    · cases hnil
    · rename_i res hloop
      obtain ⟨subs, hs, rfl⟩ := loop_ok_inv _ _ _ hloop
      have hs' := (List.forall₂_map_left_iff).1 hs
      by_cases he : subs = []
      · subst he; simpa using hs'
      · simpa [he] using hs'
  · have h := pageRows_append t userID (10 * (page - 1)).toNat
    unfold pageRows at h
    rw [← h]
    congr 3
    omega

/-- Witness of C9: page 2 of the twelve subscriptions of `userU` in `yearTable` holds the two
oldest ones, February then January 2024. -/
theorem ListSubscriptions_page_witness :
    ((Database.on yearTable).ListSubscriptions userU 2).2 = none
    ∧ ((Database.on yearTable).ListSubscriptions userU 2).1.getD []
        = [monthSubscription 2, monthSubscription 1] :=
  have h := (ListSubscriptions_page yearTable userU 2 (by decide)).2.2.1
    [monthSubscription 2, monthSubscription 1]
    (by
      rw [show ((userRowsByStartDateDesc yearTable userU).drop (10 * ((2 : Int) - 1)).toNat).take 10
          = [monthRow 2, monthRow 1] from by decide]
      exact .cons (by decide) (.cons (by decide) .nil))
  ⟨h.1, h.2.1⟩

theorem Parse_error_of_malformed {v : String} (h : wellFormedYearMonth v = false) :
    ∃ err, time.Parse v = .error err := by
  cases hp : time.Parse v with
  | error err => exact ⟨err, rfl⟩
  | ok t =>
    have := (Parse_ok_iff_wellFormed v).1 ⟨t, hp⟩
    rw [h] at this
    cases this

theorem row_error_of_malformed {t : Tuple} {name startDate endDate : String} {user : UUID}
    {price : Int}
    (hscan : Tuple.Scan5 scanString scanUUID scanInt32 scanString scanString t
      = .ok (name, user, price, startDate, endDate))
    (h : wellFormedYearMonth startDate = false ∨ wellFormedYearMonth endDate = false) :
    ∃ err, ListSubscriptions.row t = .error err := by
  unfold ListSubscriptions.row
  rw [hscan]
  dsimp only
  cases hs : time.Parse startDate with
  | error err => exact ⟨_, rfl⟩
  | ok start =>
    dsimp only
    cases he : time.Parse endDate with
    | error err => exact ⟨_, rfl⟩
    | ok stop =>
      rcases h with h | h
      · obtain ⟨e, he'⟩ := Parse_error_of_malformed h
        rw [hs] at he'
        cases he'
      · obtain ⟨e, he'⟩ := Parse_error_of_malformed h
        rw [he] at he'
        cases he'

/-- C10, where the claim fails: `2024-13` and `12/2024` are no well-formed months, yet on a pool
that answers the row `299`, as the mock pool of `TestSubscriptionTotalCost` does,
`SubscriptionTotalCost` called with them as start and end date returns the total 299 and a nil
error. -/
theorem total_cost_takes_malformed_dates :
    wellFormedYearMonth "2024-13" = false
    ∧ wellFormedYearMonth "12/2024" = false
    ∧ (Database.mockRow (.first [.int 299])).SubscriptionTotalCost userU "Yandex Plus"
          "2024-13" "12/2024"
        = (some { TotalCost := 299 }, none) := by
  decide

/-- C10, amended: `time.Parse` with the layout `2006-01` accepts exactly the well-formed
`YYYY-MM` texts. On any pool, `GetSubscription` returns nil and a non-nil error when the start or
end text it scanned is not well-formed, and so does `ListSubscriptions` when that holds for the
start or end text of any row it is given. `SubscriptionTotalCost` converts no date: its result is
fixed by what the pool answers for the arguments. -/
theorem malformed_stored_date_is_an_error {σ : Type} (d : Database σ) (userID : UUID)
    (serviceName : String) (page : Int) :
    (∀ v, (∃ t, time.Parse v = .ok t) ↔ wellFormedYearMonth v = true)
    ∧ (∀ name user startDate endDate,
        GetSubscription.scan d userID serviceName = .ok (name, user, startDate, endDate) →
        wellFormedYearMonth startDate = false ∨ wellFormedYearMonth endDate = false →
        (d.GetSubscription userID serviceName).1 = none
          ∧ (d.GetSubscription userID serviceName).2 ≠ none)
    ∧ (∀ rows t name user price startDate endDate,
        d.pool.Query d.conn listSQL [("user_id", .uuid userID), ("page", .int page)] = .ok rows →
        t ∈ rows.tuples →
        Tuple.Scan5 scanString scanUUID scanInt32 scanString scanString t
          = .ok (name, user, price, startDate, endDate) →
        wellFormedYearMonth startDate = false ∨ wellFormedYearMonth endDate = false →
        (d.ListSubscriptions userID page).1 = none ∧ (d.ListSubscriptions userID page).2 ≠ none)
    ∧ (∀ startDate endDate startDate2 endDate2 : String,
        d.pool.QueryRow d.conn totalCostSQL
            [("user_id", .uuid userID), ("start_date", .text startDate),
             ("end_date", .text endDate), ("service_name", .text serviceName)]
          = d.pool.QueryRow d.conn totalCostSQL
            [("user_id", .uuid userID), ("start_date", .text startDate2),
             ("end_date", .text endDate2), ("service_name", .text serviceName)] →
        d.SubscriptionTotalCost userID serviceName startDate endDate
          = d.SubscriptionTotalCost userID serviceName startDate2 endDate2) := by
  refine ⟨Parse_ok_iff_wellFormed, ?_, ?_, ?_⟩
  · intro name user startDate endDate hscan h
    unfold Database.GetSubscription
    rw [hscan]
    dsimp only
    cases hs : time.Parse startDate with
    | error err => simp
    | ok start =>
      dsimp only
      cases he : time.Parse endDate with
      | error err => simp
      | ok stop =>
        rcases h with h | h
        · obtain ⟨e, he'⟩ := Parse_error_of_malformed h
          rw [hs] at he'
          cases he'
        · obtain ⟨e, he'⟩ := Parse_error_of_malformed h
          rw [he] at he'
          cases he'
  · intro rows t name user price startDate endDate hq hmem hscan h
    obtain ⟨err, herr⟩ := row_error_of_malformed hscan h
    obtain ⟨e, he⟩ := loop_error_of_mem rows.tuples none t err hmem herr
    unfold Database.ListSubscriptions
    rw [hq]
    simp [he]
  · intro a b a2 b2 h
    unfold Database.SubscriptionTotalCost
    simp only [h]

/-- Witness of C10 on mock pools: a row whose end text is `2025-13` makes `GetSubscription` fail,
and a second row whose start text is `25-01` makes `ListSubscriptions` fail. -/
theorem malformed_stored_date_is_an_error_witness :
    ((Database.mockRow (.first [.text "Netflix", .uuid userU, .text "2025-01",
          .text "2025-13"])).GetSubscription userU "Netflix").1 = none
    ∧ ((Database.mockRow (.first [.text "Netflix", .uuid userU, .text "2025-01",
          .text "2025-13"])).GetSubscription userU "Netflix").2 ≠ none
    ∧ ((Database.mock (.ok { rowsAffected := 0 })
          (.ok { tuples := [[.text "Kion", .uuid userU, .int 199, .text "2024-02",
                              .text "2024-11"],
                            [.text "Netflix", .uuid userU, .int 999, .text "25-01",
                              .text "2025-06"]] })
          .empty).ListSubscriptions userU 1).1 = none
    ∧ ((Database.mock (.ok { rowsAffected := 0 })
          (.ok { tuples := [[.text "Kion", .uuid userU, .int 199, .text "2024-02",
                              .text "2024-11"],
                            [.text "Netflix", .uuid userU, .int 999, .text "25-01",
                              .text "2025-06"]] })
          .empty).ListSubscriptions userU 1).2 ≠ none :=
  have hget := (malformed_stored_date_is_an_error
    (Database.mockRow (.first [.text "Netflix", .uuid userU, .text "2025-01", .text "2025-13"]))
    userU "Netflix" 1).2.1 "Netflix" userU "2025-01" "2025-13" rfl (Or.inr (by decide))
  have hlist := (malformed_stored_date_is_an_error
    (Database.mock (.ok { rowsAffected := 0 })
      (.ok { tuples := [[.text "Kion", .uuid userU, .int 199, .text "2024-02", .text "2024-11"],
                        [.text "Netflix", .uuid userU, .int 999, .text "25-01",
                          .text "2025-06"]] })
      .empty)
    userU "Netflix" 1).2.2.1 _ [.text "Netflix", .uuid userU, .int 999, .text "25-01",
      .text "2025-06"] "Netflix" userU 999 "25-01" "2025-06" rfl (by decide) (by decide)
      (Or.inl (by decide))
  ⟨hget.1, hget.2, hlist.1, hlist.2⟩

/-! ## The layout `2006-01`: formatting, then parsing -/

theorem toDigitsCore_step (fuel n : Nat) (ds : List Char) :
    Nat.toDigitsCore 10 (fuel + 1) n ds
      = if n / 10 = 0 then Nat.digitChar (n % 10) :: ds
        else Nat.toDigitsCore 10 fuel (n / 10) (Nat.digitChar (n % 10) :: ds) := by
  simp [Nat.toDigitsCore]

theorem toDigits_lt_10 (n : Nat) (h : n < 10) : Nat.toDigits 10 n = [Nat.digitChar n] := by
  unfold Nat.toDigits
  rw [toDigitsCore_step, if_pos (by omega)]
  congr 2
  omega

theorem toDigits_lt_100 (n : Nat) (h1 : 10 ≤ n) (h2 : n < 100) :
    Nat.toDigits 10 n = [Nat.digitChar (n / 10), Nat.digitChar (n % 10)] := by
  obtain ⟨k, rfl⟩ : ∃ k, n = k + 1 := ⟨n - 1, by omega⟩
  unfold Nat.toDigits
  rw [toDigitsCore_step, if_neg (by omega), toDigitsCore_step, if_pos (by omega)]
  congr 2
  omega

theorem toDigits_lt_1000 (n : Nat) (h1 : 100 ≤ n) (h2 : n < 1000) :
    Nat.toDigits 10 n
      = [Nat.digitChar (n / 100), Nat.digitChar (n / 10 % 10), Nat.digitChar (n % 10)] := by
  obtain ⟨k, rfl⟩ : ∃ k, n = k + 2 := ⟨n - 2, by omega⟩
  unfold Nat.toDigits
  rw [toDigitsCore_step, if_neg (by omega), toDigitsCore_step, if_neg (by omega),
    toDigitsCore_step, if_pos (by omega)]
  congr 2
  omega

theorem toDigits_lt_10000 (n : Nat) (h1 : 1000 ≤ n) (h2 : n < 10000) :
    Nat.toDigits 10 n
      = [Nat.digitChar (n / 1000), Nat.digitChar (n / 100 % 10), Nat.digitChar (n / 10 % 10),
         Nat.digitChar (n % 10)] := by
  obtain ⟨k, rfl⟩ : ∃ k, n = k + 3 := ⟨n - 3, by omega⟩
  unfold Nat.toDigits
  rw [toDigitsCore_step, if_neg (by omega), toDigitsCore_step, if_neg (by omega),
    toDigitsCore_step, if_neg (by omega), toDigitsCore_step, if_pos (by omega)]
  congr 2
  · omega
  · congr 2; omega

theorem zeroPad_four (n : Nat) (h : n < 10000) :
    time.zeroPad 4 n
      = [Nat.digitChar (n / 1000), Nat.digitChar (n / 100 % 10), Nat.digitChar (n / 10 % 10),
         Nat.digitChar (n % 10)] := by
  unfold time.zeroPad
  by_cases h1 : n < 10
  · rw [toDigits_lt_10 n h1]
    have e1 : n / 1000 = 0 := by omega
    have e2 : n / 100 % 10 = 0 := by omega
    have e3 : n / 10 % 10 = 0 := by omega
    have e4 : n % 10 = n := by omega
    rw [e1, e2, e3, e4]
    rfl
  · by_cases h2 : n < 100
    · rw [toDigits_lt_100 n (by omega) h2]
      have e1 : n / 1000 = 0 := by omega
      have e2 : n / 100 % 10 = 0 := by omega
      have e3 : n / 10 % 10 = n / 10 := by omega
      rw [e1, e2, e3]
      rfl
    · by_cases h3 : n < 1000
      · rw [toDigits_lt_1000 n (by omega) h3]
        have e1 : n / 1000 = 0 := by omega
        have e2 : n / 100 % 10 = n / 100 := by omega
        rw [e1, e2]
        rfl
      · rw [toDigits_lt_10000 n (by omega) h]
        rfl

theorem zeroPad_two (n : Nat) (h : n < 100) :
    time.zeroPad 2 n = [Nat.digitChar (n / 10), Nat.digitChar (n % 10)] := by
  unfold time.zeroPad
  by_cases h1 : n < 10
  · rw [toDigits_lt_10 n h1]
    have e1 : n / 10 = 0 := by omega
    have e4 : n % 10 = n := by omega
    rw [e1, e4]
    rfl
  · rw [toDigits_lt_100 n (by omega) h]
    rfl

theorem digitChar_digit : ∀ k, k < 10 →
    time.isDigit (Nat.digitChar k) = true ∧ time.digit (Nat.digitChar k) = k := by
  decide


theorem Parse_Format (t : time.Time) (h : validMonth t) :
    time.Parse t.Format = .ok { year := t.year, month := t.month, day := 1, nsec := 0 } := by
  obtain ⟨h0, h1, h2, h3⟩ := h
  obtain ⟨y, hy⟩ := Int.eq_ofNat_of_zero_le h0
  have hy' : y < 10000 := by omega
  have hm : t.month < 100 := by omega
  have d1 := digitChar_digit (y / 1000) (by omega)
  have d2 := digitChar_digit (y / 100 % 10) (by omega)
  have d3 := digitChar_digit (y / 10 % 10) (by omega)
  have d4 := digitChar_digit (y % 10) (by omega)
  have d5 := digitChar_digit (t.month / 10) (by omega)
  have d6 := digitChar_digit (t.month % 10) (by omega)
  have hf : t.Format = String.mk [Nat.digitChar (y / 1000), Nat.digitChar (y / 100 % 10),
      Nat.digitChar (y / 10 % 10), Nat.digitChar (y % 10), '-',
      Nat.digitChar (t.month / 10), Nat.digitChar (t.month % 10)] := by
    unfold time.Time.Format time.appendInt
    rw [if_neg (by omega), if_neg (by omega), hy]
    simp only [Int.natAbs_ofNat]
    rw [zeroPad_four y hy', zeroPad_two t.month hm]
    rfl
  rw [hf]
  unfold time.Parse
  dsimp only [String.toList]
  simp only [d1, d2, d3, d4, d5, d6, Bool.and_self, beq_self_eq_true, if_true]
  rw [if_neg (by omega)]
  congr 2
  · rw [hy]; congr 1; omega
  · omega

theorem Parse_strict {x y : String} {tx ty : time.Time} (hx : time.Parse x = .ok tx)
    (hy : time.Parse y = .ok ty) (h : textLess x.toList y.toList = true) :
    tx.year < ty.year ∨ (tx.year = ty.year ∧ tx.month < ty.month) := by
  obtain ⟨a1, a2, a3, a4, a5, a6, hxl, ha1, ha2, ha3, ha4, ha5, ha6, -, -, rfl⟩ := Parse_ok_elim hx
  obtain ⟨b1, b2, b3, b4, b5, b6, hyl, hb1, hb2, hb3, hb4, hb5, hb6, -, -, rfl⟩ := Parse_ok_elim hy
  rw [hxl, hyl] at h
  have := digit_of_isDigit ha1
  have := digit_of_isDigit ha2
  have := digit_of_isDigit ha3
  have := digit_of_isDigit ha4
  have := digit_of_isDigit ha5
  have := digit_of_isDigit ha6
  have := digit_of_isDigit hb1
  have := digit_of_isDigit hb2
  have := digit_of_isDigit hb3
  have := digit_of_isDigit hb4
  have := digit_of_isDigit hb5
  have := digit_of_isDigit hb6
  simp only [textLess, Bool.or_eq_true, decide_eq_true_eq, Bool.and_eq_true, beq_iff_eq,
    Bool.or_false, Bool.and_false, lt_self_iff_false, decide_False, Bool.false_or,
    beq_self_eq_true, Bool.true_and, false_or, or_false, and_false] at h
  simp only [Nat.cast_lt, Nat.cast_inj]
  omega

theorem Format_ordered (a b : time.Time) (ha : validMonth a) (hb : validMonth b)
    (h : time.Time.le a b) : textLess b.Format.toList a.Format.toList = false := by
  cases hl : textLess b.Format.toList a.Format.toList with
  | false => rfl
  | true =>
    have := Parse_strict (Parse_Format b hb) (Parse_Format a ha) hl
    unfold time.Time.le at h
    simp only at this
    omega

/-! ## The claims on the invariant, on failures and on the clipped interval -/

theorem storeInvariant_insert (t : Table) (u : UUID) (s : String) (p : Int) (sd ed : String) :
    storeInvariant (insertSubscription t u s p sd ed)
      = (storeInvariant t && !textLess ed.toList sd.toList) := by
  simp [storeInvariant, insertSubscription, rowInvariant, List.all_append]

/-- C11, where the claim fails: on the empty store, which satisfies the invariant,
`CreateSubscription` of a subscription that starts in 2025-06 and ends in 2025-01 succeeds, and
the store then holds a row whose `start_date` is after its `end_date`. -/
theorem create_stores_an_end_before_the_start :
    storeInvariant [] = true
    ∧ ((Database.on []).CreateSubscription reversed).1 = (some reversed, none)
    ∧ ((Database.on []).CreateSubscription reversed).2.conn
        = [{ netflixRow with start_date := some "2025-06", end_date := some "2025-01" }]
    ∧ storeInvariant ((Database.on []).CreateSubscription reversed).2.conn = false := by
  decide

/-- C11, amended: on the relational store, from a table that satisfies the invariant,
`CreateSubscription` of a subscription whose start and end are months with a year of four digits
and whose start is not after its end succeeds and leaves a table that satisfies the invariant. -/
theorem create_keeps_the_invariant_for_ordered_dates (t : Table) (sub : Subscription)
    (ht : storeInvariant t = true) (hstart : validMonth sub.StartDate)
    (hend : validMonth sub.EndDate) (hle : time.Time.le sub.StartDate sub.EndDate) :
    ((Database.on t).CreateSubscription sub).1 = (some sub, none)
    ∧ storeInvariant ((Database.on t).CreateSubscription sub).2.conn = true := by
  rw [postgres_CreateSubscription]
  refine ⟨rfl, ?_⟩
  show storeInvariant (insertSubscription t _ _ _ _ _) = true
  rw [storeInvariant_insert, ht, Format_ordered _ _ hstart hend hle]
  rfl

/-- Witness of C11: the Netflix subscription from 2025-01 to 2025-06, created on a store that
holds the Yandex Plus row. -/
theorem create_keeps_the_invariant_for_ordered_dates_witness :
    storeInvariant [yandexRow] = true
    ∧ ((Database.on [yandexRow]).CreateSubscription netflix).1 = (some netflix, none)
    ∧ storeInvariant ((Database.on [yandexRow]).CreateSubscription netflix).2.conn = true :=
  ⟨by decide,
   create_keeps_the_invariant_for_ordered_dates [yandexRow] netflix (by decide) (by decide)
     (by decide) (by decide)⟩

/-- C12, where the claim fails: `ListSubscriptions` returns a nil slice with a nil error when
the store delivers no row, on the relational store and on a mock pool, and
`SubscriptionTotalCost` returns a nil result with a nil error when the scan reports
`pgx.ErrNoRows`. -/
theorem no_rows_give_nil_and_nil :
    (Database.on []).ListSubscriptions userU 1 = (none, none)
    ∧ (Database.mock (.ok { rowsAffected := 0 }) (.ok { tuples := [] })
          .empty).ListSubscriptions userU 1 = (none, none)
    ∧ (Database.mockRow .empty).SubscriptionTotalCost userU "Netflix" "2025-01" "2025-06"
        = (none, none) := by
  decide

/-- C12, amended: on any pool, `ListSubscriptions` and `SubscriptionTotalCost` never return a
result together with an error. A nil error of `ListSubscriptions` means that the query succeeded,
that the iteration ended without error and that the list holds, in order, one subscription for
every row delivered, so no partial list is returned; the list is nil exactly when no row was
delivered. `SubscriptionTotalCost` returns nil with a nil error exactly when the scan reports
`pgx.ErrNoRows`. -/
theorem list_and_total_cost_succeed_or_fail_as_a_whole {σ : Type} (d : Database σ)
    (userID : UUID) (serviceName startDate endDate : String) (page : Int) :
    ((d.ListSubscriptions userID page).2 ≠ none → (d.ListSubscriptions userID page).1 = none)
    ∧ ((d.ListSubscriptions userID page).2 = none →
        ∃ rows, d.pool.Query d.conn listSQL [("user_id", .uuid userID), ("page", .int page)]
            = .ok rows
          ∧ rows.err = none
          ∧ List.Forall₂ (fun t sub => ListSubscriptions.row t = .ok sub) rows.tuples
              ((d.ListSubscriptions userID page).1.getD [])
          ∧ ((d.ListSubscriptions userID page).1 = none ↔ rows.tuples = []))
    ∧ ((d.SubscriptionTotalCost userID serviceName startDate endDate).2 ≠ none →
        (d.SubscriptionTotalCost userID serviceName startDate endDate).1 = none)
    ∧ (d.SubscriptionTotalCost userID serviceName startDate endDate = (none, none) ↔
        (d.pool.QueryRow d.conn totalCostSQL
            [("user_id", .uuid userID), ("start_date", .text startDate),
             ("end_date", .text endDate), ("service_name", .text serviceName)]).tuple
          >>= Tuple.Scan1 scanInt = .error .ErrNoRows) := by
  refine ⟨?_, ?_, ?_, ?_⟩
  · unfold Database.ListSubscriptions
    cases d.pool.Query d.conn listSQL [("user_id", .uuid userID), ("page", .int page)] with
    | error err => simp
    | ok rows =>
      dsimp only
      cases ListSubscriptions.loop rows.tuples none with
      | error err => simp
      | ok subs =>
        dsimp only
        cases rows.err <;> simp
  · unfold Database.ListSubscriptions
    cases hq : d.pool.Query d.conn listSQL [("user_id", .uuid userID), ("page", .int page)] with
    | error err => simp
    | ok rows =>
      dsimp only
      cases hl : ListSubscriptions.loop rows.tuples none with
      | error err => simp
      | ok subs =>
        dsimp only
        cases he : rows.err with
        | some err => simp
        | none =>
          intro _
          obtain ⟨l, hl1, hl2⟩ := loop_ok_inv _ _ _ hl
          refine ⟨rows, rfl, he, ?_, ?_⟩
          · subst hl2
            by_cases hnil : l = []
            · subst hnil; simpa using hl1
            · simpa [hnil] using hl1
          · subst hl2
            by_cases hnil : l = []
            · subst hnil
              simpa using hl1
            · simp only [hnil, if_false]
              constructor
              · intro h; cases h
              · intro h
                rw [h] at hl1
                cases hl1
                exact absurd rfl hnil
  · unfold Database.SubscriptionTotalCost
    dsimp only
    split
    · split <;> simp
    · simp
  · unfold Database.SubscriptionTotalCost
    dsimp only
    split
    · rename_i err herr
      rw [herr]
      by_cases h : err = .ErrNoRows
      · simp [h]
      · simp [h]
    · rename_i v hv
      rw [hv]
      simp

/-- Witness of C12 on mock pools: the second of two rows does not parse, and `ListSubscriptions`
returns no list, not the first row alone; a query of `SubscriptionTotalCost` that failed returns
no result. -/
theorem list_and_total_cost_succeed_or_fail_as_a_whole_witness :
    ((Database.mock (.ok { rowsAffected := 0 }) (.ok { tuples := secondRowBroken })
          .empty).ListSubscriptions userU 1).2 ≠ none
    ∧ ((Database.mock (.ok { rowsAffected := 0 }) (.ok { tuples := secondRowBroken })
          .empty).ListSubscriptions userU 1).1 = none
    ∧ ((Database.mockRow (.failed (.driver "connection refused"))).SubscriptionTotalCost userU
          "Netflix" "2025-01" "2025-06").1 = none :=
  ⟨by decide,
   (list_and_total_cost_succeed_or_fail_as_a_whole
      (Database.mock (.ok { rowsAffected := 0 }) (.ok { tuples := secondRowBroken }) .empty)
      userU "Netflix" "2025-01" "2025-06" 1).1 (by decide),
   (list_and_total_cost_succeed_or_fail_as_a_whole
      (Database.mockRow (.failed (.driver "connection refused")))
      userU "Netflix" "2025-01" "2025-06" 1).2.2.1 (by decide)⟩

theorem String.eq_of_toList_eq {a b : String} (h : a.toList = b.toList) : a = b :=
  String.ext h

theorem clip_of_selected {u : UUID} {s qs qe : String} {r : TableRow}
    (h : totalCostWhere u s qs qe r = true) :
    clipStart r qs = some qs ∧ clipEnd r qe = some qe := by
  simp only [totalCostWhere, Bool.and_eq_true, Bool.or_eq_true] at h
  obtain ⟨⟨⟨-, -⟩, hstart⟩, hend⟩ := h
  constructor
  · unfold clipStart GREATEST
    cases hsd : r.start_date with
    | none => simp [sqlLE, hsd] at hstart
    | some x =>
      simp only [sqlLE, hsd, Bool.not_eq_true'] at hstart
      dsimp only
      by_cases hl : textLess x.toList qs.toList = true
      · rw [if_pos hl]
      · rw [if_neg hl]
        have := textLess_total _ _ (by simpa using hl) hstart
        rw [String.eq_of_toList_eq this]
  · unfold clipEnd LEAST COALESCE
    cases hed : r.end_date with
    | none =>
      dsimp only
      rw [textLess_irrefl]
      rfl
    | some e =>
      rcases hend with hend | hend
      · simp [isNull, hed] at hend
      · simp only [sqlGE, hed, Bool.not_eq_true'] at hend
        dsimp only
        by_cases hl : textLess qe.toList e.toList = true
        · rw [if_pos hl]
        · rw [if_neg hl]
          have := textLess_total _ _ hend (by simpa using hl)
          rw [String.eq_of_toList_eq this]

/-- C13, as the code behaves: for every table and every window, each row that passes the WHERE
clause of `SubscriptionTotalCost` has its clipped interval equal to the window, start and end; but
no total is returned: the store rejects the statement and the call returns no result and an
error. -/
theorem selected_rows_clip_to_the_window_but_no_total (t : Table) (userID : UUID)
    (serviceName startDate endDate : String) :
    (∀ r ∈ t.filter (totalCostWhere userID serviceName startDate endDate),
        clipStart r startDate = some startDate ∧ clipEnd r endDate = some endDate)
    ∧ (Database.on t).SubscriptionTotalCost userID serviceName startDate endDate
        = (none, some (.Errorf "error scanning row" syntaxError)) := by
  refine ⟨?_, postgres_SubscriptionTotalCost _ _ _ _ _⟩
  intro r hr
  exact clip_of_selected (List.mem_filter.1 hr).2

/-- Witness of C13: both Yandex Plus rows of `userU`, one from 2024-01 to 2024-12 and one
open-ended from 2023-11, are selected for the window 2024-03..2024-06 and clip to it, and the
call returns an error instead of a total. -/
theorem selected_rows_clip_to_the_window_but_no_total_witness :
    [yandexRow, yandexOpenRow].filter (totalCostWhere userU "Yandex Plus" "2024-03" "2024-06")
        = [yandexRow, yandexOpenRow]
    ∧ clipStart yandexRow "2024-03" = some "2024-03"
    ∧ clipEnd yandexRow "2024-06" = some "2024-06"
    ∧ clipStart yandexOpenRow "2024-03" = some "2024-03"
    ∧ clipEnd yandexOpenRow "2024-06" = some "2024-06"
    ∧ (Database.on [yandexRow, yandexOpenRow]).SubscriptionTotalCost userU "Yandex Plus"
          "2024-03" "2024-06"
        = (none, some (.Errorf "error scanning row" syntaxError)) :=
  have h := selected_rows_clip_to_the_window_but_no_total [yandexRow, yandexOpenRow] userU
    "Yandex Plus" "2024-03" "2024-06"
  ⟨by decide, (h.1 yandexRow (by decide)).1, (h.1 yandexRow (by decide)).2,
   (h.1 yandexOpenRow (by decide)).1, (h.1 yandexOpenRow (by decide)).2, h.2⟩

end Subscriptions
